import Mathlib

/-!
# Verification of the skuf dependency-injection core

A shallow embedding of the repository's dependency-injection engine
(`skuf/dependency/registry.py`, `skuf/dependency/inspector.py`,
`skuf/dependency/wrapper.py`) and proofs about its behaviour.

Modelling conventions:
* Python objects consumed by the engine are modelled by `Obj`: a record of
  the structural capability markers the `Inspector` probes for
  (`__enter__`/`__exit__`, `__aenter__`/`__aexit__`, `__aiter__`/`__anext__`),
  the object's runtime class name (`ofCls`) and an identity tag.
* A dependency key (a Python class used as the registry key) is modelled by
  its name (`Key := String`); the host language's zero-argument construction
  of a class (`dependency_cls()`) is supplied as an environment `Key → Obj`.
* A stored producer (`Callable[[], Any]`) is a Lean function `Unit → Obj`.
* Wrapped calls are given a small-step-free trace semantics: running a
  wrapper yields the Python-level result (`Except Exc Obj`, errors being
  raised exceptions) together with a list of observable `Event`s (resource
  acquisition/release, generator advancement, target invocation), so that
  ordering and exactly-once properties are stated on the trace.
* Python `with` semantics: `__exit__` receives the in-flight exception (if
  any) and its return value's truthiness decides suppression, per the host
  language's context-manager protocol.  The behaviour of `__enter__`,
  `__exit__`, `__aenter__`, `__aexit__` and of async generators is supplied
  by an environment `Env` mapping objects to their protocol behaviour.
-/

namespace Skuf

/-- A Python object as seen by the dependency engine: the structural
capability markers probed by `Inspector`, the runtime class name, and an
identity tag distinguishing objects. -/
structure Obj where
  hasEnter : Bool := false
  hasExit : Bool := false
  hasAenter : Bool := false
  hasAexit : Bool := false
  hasAiter : Bool := false
  hasAnext : Bool := false
  ofCls : String := ""
  tag : String := ""
deriving DecidableEq, Repr

/-- The Python `None` value returned by a function body that falls off the
end. -/
def pyNone : Obj := { tag := "None" }

/-- Exceptions raised by the engine or by user code. -/
inductive Exc where
  | valueError (msg : String)
  | keyError (name : String)
  | userExc (tag : String)
deriving DecidableEq, Repr

/-- A dependency key: the registered class, identified by its name
(`dependency_cls.__name__`). -/
abbrev Key := String

/-- A stored producer: a zero-argument callable (`Callable[[], Any]`). -/
abbrev Producer := Unit → Obj

/-- The registry state: `DependencyRegistry.__registry`, a mapping from
keys to producers. -/
abbrev Registry := Key → Option Producer

/-- The empty registry. -/
def emptyRegistry : Registry := fun _ => none

/-- The keyword options accepted by `DependencyRegistry.register`; each is
optional (`None` in Python ↔ `none` here).  `instance` is a Lean keyword,
hence the trailing underscore. -/
structure RegisterOptions where
  instance_ : Option Obj := none
  factory : Option Producer := none
  context_manager : Option Producer := none
  async_context_manager : Option Producer := none
  async_generator_factory : Option Producer := none

namespace DependencyRegistry

/-- The producer stored by `DependencyRegistry.register`, chosen by the
source's `if instance is not None / elif factory is not None / ...` chain;
`ctorEnv` supplies the host behaviour of `dependency_cls()` for the final
`lambda: dependency_cls()` fallback. -/
def chooseProducer (ctorEnv : Key → Obj) (dependency_cls : Key)
    (o : RegisterOptions) : Producer :=
  match o.instance_ with
  | some v => fun _ => v
  | none =>
    match o.factory with
    | some f => f
    | none =>
      match o.context_manager with
      | some f => f
      | none =>
        match o.async_context_manager with
        | some f => f
        | none =>
          match o.async_generator_factory with
          | some f => f
          | none => fun _ => ctorEnv dependency_cls

/-- `DependencyRegistry.register`: store the chosen producer under the
key, overwriting any previous entry. -/
def register (ctorEnv : Key → Obj) (reg : Registry) (dependency_cls : Key)
    (o : RegisterOptions) : Registry :=
  fun k => if k = dependency_cls then some (chooseProducer ctorEnv dependency_cls o) else reg k

/-- The `ValueError` raised by `resolve` for an unregistered key. -/
def notRegisteredError (dependency_cls : Key) : Exc :=
  .valueError ("Dependency " ++ dependency_cls ++ " is not registered")

/-- `DependencyRegistry.resolve`: raise `ValueError` when the key has no
stored producer, otherwise invoke the stored producer and return its
result unmodified. -/
def resolve (reg : Registry) (dependency_cls : Key) : Except Exc Obj :=
  match reg dependency_cls with
  | none => .error (notRegisteredError dependency_cls)
  | some factory => .ok (factory ())

/-- `DependencyRegistry.clear`: empty the registry (the warning it emits is
not modelled). -/
def clear (_reg : Registry) : Registry := fun _ => none

/-- `resolve` performed `n` times in a row against the same registry state
(resolution does not mutate the registry). -/
def resolveN (reg : Registry) (dependency_cls : Key) : Nat → List (Except Exc Obj)
  | 0 => []
  | n + 1 => resolve reg dependency_cls :: resolveN reg dependency_cls n

end DependencyRegistry

namespace Inspector

/-- `Inspector.is_context_manager`: structural probe for the presence of
both `__enter__` and `__exit__`. -/
def is_context_manager (obj : Obj) : Bool :=
  obj.hasEnter && obj.hasExit

/-- `Inspector.is_async_context_manager`: structural probe for the presence
of both `__aenter__` and `__aexit__`. -/
def is_async_context_manager (obj : Obj) : Bool :=
  obj.hasAenter && obj.hasAexit

/-- `Inspector.is_async_generator`: structural probe for the presence of
both `__aiter__` and `__anext__`. -/
def is_async_generator (obj : Obj) : Bool :=
  obj.hasAiter && obj.hasAnext

end Inspector

/-- The kind of a declared parameter (`inspect.Parameter.kind`). -/
inductive PKind where
  | positionalOnly
  | positionalOrKeyword
  | varPositional
  | keywordOnly
  | varKeyword
deriving DecidableEq, Repr

/-- A declared parameter of the target's signature. -/
structure Param where
  name : String
  kind : PKind
deriving DecidableEq, Repr

/-- The target's declared signature, in declaration order
(`inspect.signature(func).parameters`). -/
abbrev Sig := List Param

/-- `sig.parameters[param_name]`: the named parameter, if declared. -/
def findParam (sig : Sig) (name : String) : Option Param :=
  sig.find? (fun p => p.name == name)

/-- Whether a parameter kind is one of `POSITIONAL_ONLY`,
`POSITIONAL_OR_KEYWORD` (the kinds the wrapper's skip check considers). -/
def isPositionalKind (k : PKind) : Bool :=
  k == .positionalOnly || k == .positionalOrKeyword

/-- The wrapper's `positional_count` loop: the number of positional
parameters declared before `param_name` in the original signature. -/
def positionalCountBefore (sig : Sig) (param_name : String) : Nat :=
  match sig with
  | [] => 0
  | p :: rest =>
    if p.name == param_name then 0
    else (if isPositionalKind p.kind then 1 else 0) + positionalCountBefore rest param_name

/-- The wrapper's skip condition: the named parameter is positional and the
caller's positional arguments already cover its position
(`len(args) > positional_count`). -/
def skipInjection (sig : Sig) (param : Param) (param_name : String)
    (args : List Obj) : Bool :=
  isPositionalKind param.kind
    && decide (positionalCountBefore sig param_name < args.length)

/-- The caller's keyword arguments, as an association list in insertion
order. -/
abbrev Kwargs := List (String × Obj)

/-- Python dict assignment `kwargs[k] = v`: overwrite in place when the key
is present, append otherwise. -/
def kwSet (kwargs : Kwargs) (k : String) (v : Obj) : Kwargs :=
  match kwargs with
  | [] => [(k, v)]
  | (k', v') :: rest => if k' == k then (k, v) :: rest else (k', v') :: kwSet rest k v

/-- Python membership test `k in kwargs`. -/
def kwMem (kwargs : Kwargs) (k : String) : Bool :=
  kwargs.any (fun e => e.1 == k)

/-- Python lookup `kwargs[k]`, as an `Option`. -/
def kwGet (kwargs : Kwargs) (k : String) : Option Obj :=
  (kwargs.find? (fun e => e.1 == k)).map (fun e => e.2)

/-- Host-protocol behaviour of resource objects: what `__enter__` /
`__aenter__` return, the truthiness of `__exit__` / `__aexit__` (which, per
the context-manager protocol, decides whether an in-flight exception is
suppressed), and the value sequence yielded by an async generator. -/
structure Env where
  enterFn : Obj → Obj
  exitFn : Obj → Option Exc → Bool
  aenterFn : Obj → Obj
  aexitFn : Obj → Option Exc → Bool
  agenFn : Obj → List Obj

/-- Observable events of one wrapped invocation, in execution order. -/
inductive Event where
  | enter (dep ctx : Obj)
  | exited (dep : Obj) (e : Option Exc)
  | aenter (dep ctx : Obj)
  | aexited (dep : Obj) (e : Option Exc)
  | anext (dep : Obj) (v : Option Obj)
  | callTarget (args : List Obj) (kwargs : Kwargs)
deriving DecidableEq, Repr

/-- The wrapped target: a function of positional and keyword arguments that
returns a value or raises. -/
abbrev Func := List Obj → Kwargs → Except Exc Obj

/-- Result of one wrapped invocation: the Python-level outcome plus the
event trace. -/
abbrev RunResult := Except Exc Obj × List Event

namespace Wrapper

/-- `Wrapper.wrap_function_with_context`, one invocation of the returned
wrapper: resolve the dependency, look up the named parameter, skip
injection when the caller's positional arguments already cover its
position, then either run the target inside `with dependency as
context_obj` (binding the acquired object to the named parameter, with
`__exit__` receiving any in-flight exception and its truthiness deciding
suppression) or, for a plain value, bind the dependency only when the name
is absent from the keyword arguments. -/
def wrap_function_with_context (env : Env) (reg : Registry) (sig : Sig)
    (func : Func) (param_name : String) (dependency_cls : Key)
    (args : List Obj) (kwargs : Kwargs) : RunResult :=
  match DependencyRegistry.resolve reg dependency_cls with
  | .error e => (.error e, [])
  | .ok dependency =>
    match findParam sig param_name with
    | none => (.error (.keyError param_name), [])
    | some param =>
      if skipInjection sig param param_name args then
        (func args kwargs, [.callTarget args kwargs])
      else if Inspector.is_context_manager dependency then
        let ctx := env.enterFn dependency
        let kwargsC := kwSet kwargs param_name ctx
        match func args kwargsC with
        | .ok v =>
          (.ok v, [.enter dependency ctx, .callTarget args kwargsC, .exited dependency none])
        | .error e =>
          if env.exitFn dependency (some e) then
            (.ok pyNone,
             [.enter dependency ctx, .callTarget args kwargsC, .exited dependency (some e)])
          else
            (.error e,
             [.enter dependency ctx, .callTarget args kwargsC, .exited dependency (some e)])
      else
        let kwargsP := if kwMem kwargs param_name then kwargs else kwSet kwargs param_name dependency
        (func args kwargsP, [.callTarget args kwargsP])

/-- `Wrapper.wrap_async_function_with_context`, one invocation of the
returned wrapper: as the synchronous wrapper, but classifying the resolved
value as async context manager first, then async generator (`async for
context_obj in dependency: ...; return await func(...)` — the loop body
returns after the first yielded value, leaving the rest of the sequence
unconsumed), then plain value. -/
def wrap_async_function_with_context (env : Env) (reg : Registry) (sig : Sig)
    (func : Func) (param_name : String) (dependency_cls : Key)
    (args : List Obj) (kwargs : Kwargs) : RunResult :=
  match DependencyRegistry.resolve reg dependency_cls with
  | .error e => (.error e, [])
  | .ok dependency =>
    match findParam sig param_name with
    | none => (.error (.keyError param_name), [])
    | some param =>
      if skipInjection sig param param_name args then
        (func args kwargs, [.callTarget args kwargs])
      else if Inspector.is_async_context_manager dependency then
        let ctx := env.aenterFn dependency
        let kwargsC := kwSet kwargs param_name ctx
        match func args kwargsC with
        | .ok v =>
          (.ok v, [.aenter dependency ctx, .callTarget args kwargsC, .aexited dependency none])
        | .error e =>
          if env.aexitFn dependency (some e) then
            (.ok pyNone,
             [.aenter dependency ctx, .callTarget args kwargsC, .aexited dependency (some e)])
          else
            (.error e,
             [.aenter dependency ctx, .callTarget args kwargsC, .aexited dependency (some e)])
      else if Inspector.is_async_generator dependency then
        match env.agenFn dependency with
        | [] => (.ok pyNone, [.anext dependency none])
        | v :: _ =>
          let kwargsG := kwSet kwargs param_name v
          (func args kwargsG, [.anext dependency (some v), .callTarget args kwargsG])
      else
        let kwargsP := if kwMem kwargs param_name then kwargs else kwSet kwargs param_name dependency
        (func args kwargsP, [.callTarget args kwargsP])

end Wrapper

/-- The four shapes a resolved value can be consumed as. -/
inductive Shape where
  | syncScoped
  | asyncScoped
  | asyncMulti
  | plainValue
deriving DecidableEq, Repr

/-- The branch the synchronous wrapper selects for a resolved value (its
`if Inspector.is_context_manager(...) / else` chain). -/
def syncShape (dependency : Obj) : Shape :=
  if Inspector.is_context_manager dependency then .syncScoped else .plainValue

/-- The branch the asynchronous wrapper selects for a resolved value (its
`if Inspector.is_async_context_manager(...) / elif
Inspector.is_async_generator(...) / else` chain). -/
def asyncShape (dependency : Obj) : Shape :=
  if Inspector.is_async_context_manager dependency then .asyncScoped
  else if Inspector.is_async_generator dependency then .asyncMulti
  else .plainValue

/-- The classification asserted by the spec, written from the spec's words
for comparison with the code: one global fixed precedence
synchronous-scoped > asynchronous-scoped > asynchronous-multi-value >
plain, determined purely by the capability markers. -/
def specShape (dependency : Obj) : Shape :=
  if Inspector.is_context_manager dependency then .syncScoped
  else if Inspector.is_async_context_manager dependency then .asyncScoped
  else if Inspector.is_async_generator dependency then .asyncMulti
  else .plainValue

/-- Number of advancement steps (`__anext__` calls) of async sequences in a
trace. -/
def anextSteps (tr : List Event) : Nat :=
  tr.countP (fun e => match e with | .anext _ _ => true | _ => false)

/-- Number of target invocations in a trace. -/
def callCount (tr : List Event) : Nat :=
  tr.countP (fun e => match e with | .callTarget _ _ => true | _ => false)

/-- Whether the trace contains the terminal advancement of `dep`'s
sequence, i.e. the sequence was driven to exhaustion (the step that raises
`StopAsyncIteration`, past the resource's final yield point). -/
def genExhausted (tr : List Event) (dep : Obj) : Bool :=
  tr.any (fun e => e == .anext dep none)

/-- The keyword arguments of the (first) target invocation in a trace. -/
def calledKwargs (tr : List Event) : Option Kwargs :=
  tr.findSome? (fun e => match e with | .callTarget _ kw => some kw | _ => none)

/-! Concrete fixtures used by witnesses and counterexamples. -/

/-- A registry mapping exactly one key to a producer of one object. -/
def regFor (k : Key) (o : Obj) : Registry :=
  fun k' => if k' = k then some (fun _ => o) else none

/-- A resolved value exposing the synchronous context-manager pair. -/
def syncCMObj : Obj := { hasEnter := true, hasExit := true, ofCls := "Res", tag := "cm" }

/-- A resolved value exposing both the synchronous and the asynchronous
context-manager pairs. -/
def dualObj : Obj :=
  { hasEnter := true, hasExit := true, hasAenter := true, hasAexit := true,
    ofCls := "Res", tag := "dual" }

/-- A resolved value exposing the async-generator pair. -/
def agenObj : Obj := { hasAiter := true, hasAnext := true, ofCls := "Res", tag := "agen" }

/-- A plain resolved value with no capability markers. -/
def plainObj : Obj := { ofCls := "Res", tag := "plain" }

/-- The object returned by `__enter__` of the fixture resources. -/
def ctxObj : Obj := { tag := "ctx" }

/-- The object returned by `__aenter__` of the fixture resources. -/
def actxObj : Obj := { tag := "actx" }

/-- First value yielded by the fixture async generator. -/
def firstObj : Obj := { tag := "first" }

/-- Second value yielded by the fixture async generator. -/
def secondObj : Obj := { tag := "second" }

/-- Third value yielded by the fixture async generator. -/
def thirdObj : Obj := { tag := "third" }

/-- A keyword-argument value supplied by the caller. -/
def callerObj : Obj := { tag := "fromCaller" }

/-- A factory-produced value whose runtime class differs from the key it is
registered under. -/
def mismatchObj : Obj := { ofCls := "Other", tag := "mismatch" }

/-- Fixture protocol behaviour: `__enter__` yields `ctxObj`, `__aenter__`
yields `actxObj`, neither release step suppresses, and async generators
yield `["first", "second", "third"]`. -/
def env0 : Env :=
  { enterFn := fun _ => ctxObj
    exitFn := fun _ _ => false
    aenterFn := fun _ => actxObj
    aexitFn := fun _ _ => false
    agenFn := fun _ => [firstObj, secondObj, thirdObj] }

/-- Like `env0`, but the synchronous release step returns a truthy value
(suppressing any in-flight exception, per the context-manager protocol). -/
def envSuppress : Env :=
  { env0 with exitFn := fun _ _ => true }

/-- A one-parameter signature: `def target(dep): ...`. -/
def sigDep : Sig := [{ name := "dep", kind := .positionalOrKeyword }]

/-- A three-parameter signature: `def target(a, b, dep): ...` with `dep` at
positional index 2. -/
def sigABDep : Sig :=
  [{ name := "a", kind := .positionalOrKeyword },
   { name := "b", kind := .positionalOrKeyword },
   { name := "dep", kind := .positionalOrKeyword }]

/-- A target returning the value bound to `dep` unchanged. -/
def identityFunc : Func := fun _ kwargs =>
  match kwGet kwargs "dep" with
  | some v => .ok v
  | none => .error (.keyError "dep")

/-- A target that raises `ValueError("boom")`-style user exception. -/
def raiseBoom : Func := fun _ _ => .error (.userExc "boom")

/-- A target returning its first positional argument. -/
def headFunc : Func := fun args _ => .ok (args.headD pyNone)

end Skuf

namespace Skuf

/-- Helper: resolving right after an instance registration invokes the
stored constant closure. -/
theorem resolve_after_register_instance (ctorEnv : Key → Obj) (reg : Registry)
    (k : Key) (v : Obj) (o : RegisterOptions) (h : o.instance_ = some v) :
    DependencyRegistry.resolve (DependencyRegistry.register ctorEnv reg k o) k = .ok v := by
  simp [DependencyRegistry.register, DependencyRegistry.resolve,
    DependencyRegistry.chooseProducer, h]

/-- Helper: an overwriting keyword-argument assignment binds the key. -/
theorem kwGet_kwSet (kwargs : Kwargs) (k : String) (v : Obj) :
    kwGet (kwSet kwargs k v) k = some v := by
  induction kwargs with
  | nil => simp [kwSet, kwGet]
  | cons e rest ih =>
    obtain ⟨k', v'⟩ := e
    by_cases h : k' = k
    · subst h
      simp [kwSet, kwGet]
    · simp [kwSet, kwGet, h] at ih ⊢
      exact ih

/-- Helper: the synchronous wrapper on the skip path calls through
unmodified. -/
theorem wrapSync_skip (env : Env) (reg : Registry) (sig : Sig) (func : Func)
    (pn : String) (k : Key) (args : List Obj) (kwargs : Kwargs)
    (dep : Obj) (param : Param)
    (hres : DependencyRegistry.resolve reg k = .ok dep)
    (hfind : findParam sig pn = some param)
    (hskip : skipInjection sig param pn args = true) :
    Wrapper.wrap_function_with_context env reg sig func pn k args kwargs
      = (func args kwargs, [.callTarget args kwargs]) := by
  simp [Wrapper.wrap_function_with_context, hres, hfind, hskip]

/-- Helper: the asynchronous wrapper on the skip path calls through
unmodified. -/
theorem wrapAsync_skip (env : Env) (reg : Registry) (sig : Sig) (func : Func)
    (pn : String) (k : Key) (args : List Obj) (kwargs : Kwargs)
    (dep : Obj) (param : Param)
    (hres : DependencyRegistry.resolve reg k = .ok dep)
    (hfind : findParam sig pn = some param)
    (hskip : skipInjection sig param pn args = true) :
    Wrapper.wrap_async_function_with_context env reg sig func pn k args kwargs
      = (func args kwargs, [.callTarget args kwargs]) := by
  simp [Wrapper.wrap_async_function_with_context, hres, hfind, hskip]

/-- Helper: the synchronous wrapper on the context-manager branch, target
returning normally. -/
theorem wrapSync_cm_ok (env : Env) (reg : Registry) (sig : Sig) (func : Func)
    (pn : String) (k : Key) (args : List Obj) (kwargs : Kwargs)
    (dep : Obj) (param : Param) (v : Obj)
    (hres : DependencyRegistry.resolve reg k = .ok dep)
    (hfind : findParam sig pn = some param)
    (hskip : skipInjection sig param pn args = false)
    (hcm : Inspector.is_context_manager dep = true)
    (hok : func args (kwSet kwargs pn (env.enterFn dep)) = .ok v) :
    Wrapper.wrap_function_with_context env reg sig func pn k args kwargs
      = (.ok v, [.enter dep (env.enterFn dep),
          .callTarget args (kwSet kwargs pn (env.enterFn dep)),
          .exited dep none]) := by
  simp [Wrapper.wrap_function_with_context, hres, hfind, hskip, hcm, hok]

/-- Helper: the synchronous wrapper on the context-manager branch, target
raising: `__exit__` receives the exception; its truthiness decides between
suppression (wrapper returns None) and re-raising unchanged. -/
theorem wrapSync_cm_err (env : Env) (reg : Registry) (sig : Sig) (func : Func)
    (pn : String) (k : Key) (args : List Obj) (kwargs : Kwargs)
    (dep : Obj) (param : Param) (e : Exc)
    (hres : DependencyRegistry.resolve reg k = .ok dep)
    (hfind : findParam sig pn = some param)
    (hskip : skipInjection sig param pn args = false)
    (hcm : Inspector.is_context_manager dep = true)
    (herr : func args (kwSet kwargs pn (env.enterFn dep)) = .error e) :
    Wrapper.wrap_function_with_context env reg sig func pn k args kwargs
      = (if env.exitFn dep (some e) then .ok pyNone else .error e,
         [.enter dep (env.enterFn dep),
          .callTarget args (kwSet kwargs pn (env.enterFn dep)),
          .exited dep (some e)]) := by
  by_cases hsup : env.exitFn dep (some e) = true
  · simp [Wrapper.wrap_function_with_context, hres, hfind, hskip, hcm, herr, hsup]
  · simp only [Bool.not_eq_true] at hsup
    simp [Wrapper.wrap_function_with_context, hres, hfind, hskip, hcm, herr, hsup]

/-- Helper: the synchronous wrapper on the plain-value branch binds the
dependency only when the name is absent from the keyword arguments. -/
theorem wrapSync_plain (env : Env) (reg : Registry) (sig : Sig) (func : Func)
    (pn : String) (k : Key) (args : List Obj) (kwargs : Kwargs)
    (dep : Obj) (param : Param)
    (hres : DependencyRegistry.resolve reg k = .ok dep)
    (hfind : findParam sig pn = some param)
    (hskip : skipInjection sig param pn args = false)
    (hcm : Inspector.is_context_manager dep = false) :
    Wrapper.wrap_function_with_context env reg sig func pn k args kwargs
      = (func args (if kwMem kwargs pn then kwargs else kwSet kwargs pn dep),
         [.callTarget args (if kwMem kwargs pn then kwargs else kwSet kwargs pn dep)]) := by
  simp [Wrapper.wrap_function_with_context, hres, hfind, hskip, hcm]

/-- Helper: the asynchronous wrapper on the async-context-manager branch,
target returning normally. -/
theorem wrapAsync_acm_ok (env : Env) (reg : Registry) (sig : Sig) (func : Func)
    (pn : String) (k : Key) (args : List Obj) (kwargs : Kwargs)
    (dep : Obj) (param : Param) (v : Obj)
    (hres : DependencyRegistry.resolve reg k = .ok dep)
    (hfind : findParam sig pn = some param)
    (hskip : skipInjection sig param pn args = false)
    (hacm : Inspector.is_async_context_manager dep = true)
    (hok : func args (kwSet kwargs pn (env.aenterFn dep)) = .ok v) :
    Wrapper.wrap_async_function_with_context env reg sig func pn k args kwargs
      = (.ok v, [.aenter dep (env.aenterFn dep),
          .callTarget args (kwSet kwargs pn (env.aenterFn dep)),
          .aexited dep none]) := by
  simp [Wrapper.wrap_async_function_with_context, hres, hfind, hskip, hacm, hok]

/-- Helper: the asynchronous wrapper on the async-context-manager branch,
target raising. -/
theorem wrapAsync_acm_err (env : Env) (reg : Registry) (sig : Sig) (func : Func)
    (pn : String) (k : Key) (args : List Obj) (kwargs : Kwargs)
    (dep : Obj) (param : Param) (e : Exc)
    (hres : DependencyRegistry.resolve reg k = .ok dep)
    (hfind : findParam sig pn = some param)
    (hskip : skipInjection sig param pn args = false)
    (hacm : Inspector.is_async_context_manager dep = true)
    (herr : func args (kwSet kwargs pn (env.aenterFn dep)) = .error e) :
    Wrapper.wrap_async_function_with_context env reg sig func pn k args kwargs
      = (if env.aexitFn dep (some e) then .ok pyNone else .error e,
         [.aenter dep (env.aenterFn dep),
          .callTarget args (kwSet kwargs pn (env.aenterFn dep)),
          .aexited dep (some e)]) := by
  by_cases hsup : env.aexitFn dep (some e) = true
  · simp [Wrapper.wrap_async_function_with_context, hres, hfind, hskip, hacm, herr, hsup]
  · simp only [Bool.not_eq_true] at hsup
    simp [Wrapper.wrap_async_function_with_context, hres, hfind, hskip, hacm, herr, hsup]

/-- Helper: the asynchronous wrapper on the async-generator branch with a
non-empty sequence advances one step, binds the first value and performs
the single target call. -/
theorem wrapAsync_agen (env : Env) (reg : Registry) (sig : Sig) (func : Func)
    (pn : String) (k : Key) (args : List Obj) (kwargs : Kwargs)
    (dep : Obj) (param : Param) (v : Obj) (rest : List Obj)
    (hres : DependencyRegistry.resolve reg k = .ok dep)
    (hfind : findParam sig pn = some param)
    (hskip : skipInjection sig param pn args = false)
    (hacm : Inspector.is_async_context_manager dep = false)
    (hagen : Inspector.is_async_generator dep = true)
    (hvals : env.agenFn dep = v :: rest) :
    Wrapper.wrap_async_function_with_context env reg sig func pn k args kwargs
      = (func args (kwSet kwargs pn v),
         [.anext dep (some v), .callTarget args (kwSet kwargs pn v)]) := by
  simp [Wrapper.wrap_async_function_with_context, hres, hfind, hskip, hacm, hagen, hvals]

/-- Helper: the asynchronous wrapper on the plain-value branch. -/
theorem wrapAsync_plain (env : Env) (reg : Registry) (sig : Sig) (func : Func)
    (pn : String) (k : Key) (args : List Obj) (kwargs : Kwargs)
    (dep : Obj) (param : Param)
    (hres : DependencyRegistry.resolve reg k = .ok dep)
    (hfind : findParam sig pn = some param)
    (hskip : skipInjection sig param pn args = false)
    (hacm : Inspector.is_async_context_manager dep = false)
    (hagen : Inspector.is_async_generator dep = false) :
    Wrapper.wrap_async_function_with_context env reg sig func pn k args kwargs
      = (func args (if kwMem kwargs pn then kwargs else kwSet kwargs pn dep),
         [.callTarget args (if kwMem kwargs pn then kwargs else kwSet kwargs pn dep)]) := by
  simp [Wrapper.wrap_async_function_with_context, hres, hfind, hskip, hacm, hagen]

/-- C2: for every key and every combination of register options, `register`
stores exactly one producer, chosen by the fixed priority
instance > factory > context_manager > async_context_manager >
async_generator_factory > default construction of the key type; supplying
several options simultaneously is never an error — the highest-priority
supplied option wins (witnessed through `resolve` invoking the stored
producer). -/
theorem register_priority (ctorEnv : Key → Obj) (reg : Registry)
    (k : Key) (o : RegisterOptions) :
    (DependencyRegistry.register ctorEnv reg k o k).isSome = true ∧
    (∀ v, o.instance_ = some v →
      DependencyRegistry.resolve (DependencyRegistry.register ctorEnv reg k o) k = .ok v) ∧
    (∀ f, o.instance_ = none → o.factory = some f →
      DependencyRegistry.resolve (DependencyRegistry.register ctorEnv reg k o) k = .ok (f ())) ∧
    (∀ f, o.instance_ = none → o.factory = none → o.context_manager = some f →
      DependencyRegistry.resolve (DependencyRegistry.register ctorEnv reg k o) k = .ok (f ())) ∧
    (∀ f, o.instance_ = none → o.factory = none → o.context_manager = none →
      o.async_context_manager = some f →
      DependencyRegistry.resolve (DependencyRegistry.register ctorEnv reg k o) k = .ok (f ())) ∧
    (∀ f, o.instance_ = none → o.factory = none → o.context_manager = none →
      o.async_context_manager = none → o.async_generator_factory = some f →
      DependencyRegistry.resolve (DependencyRegistry.register ctorEnv reg k o) k = .ok (f ())) ∧
    (o.instance_ = none → o.factory = none → o.context_manager = none →
      o.async_context_manager = none → o.async_generator_factory = none →
      DependencyRegistry.resolve (DependencyRegistry.register ctorEnv reg k o) k
        = .ok (ctorEnv k)) := by
  refine ⟨?_, fun v hv => resolve_after_register_instance ctorEnv reg k v o hv, ?_, ?_, ?_, ?_, ?_⟩
  · simp [DependencyRegistry.register]
  · intro f h1 h2
    simp [DependencyRegistry.register, DependencyRegistry.resolve,
      DependencyRegistry.chooseProducer, h1, h2]
  · intro f h1 h2 h3
    simp [DependencyRegistry.register, DependencyRegistry.resolve,
      DependencyRegistry.chooseProducer, h1, h2, h3]
  · intro f h1 h2 h3 h4
    simp [DependencyRegistry.register, DependencyRegistry.resolve,
      DependencyRegistry.chooseProducer, h1, h2, h3, h4]
  · intro f h1 h2 h3 h4 h5
    simp [DependencyRegistry.register, DependencyRegistry.resolve,
      DependencyRegistry.chooseProducer, h1, h2, h3, h4, h5]
  · intro h1 h2 h3 h4 h5
    simp [DependencyRegistry.register, DependencyRegistry.resolve,
      DependencyRegistry.chooseProducer, h1, h2, h3, h4, h5]

/-- Witness for C2 at a concrete input: registering an instance and a
factory together resolves to the instance. -/
theorem register_priority_witness :
    DependencyRegistry.resolve
      (DependencyRegistry.register (fun _ => pyNone) emptyRegistry "Db"
        { instance_ := some { tag := "theInstance" },
          factory := some (fun _ => { tag := "fromFactory" }) }) "Db"
      = .ok { tag := "theInstance" } :=
  (register_priority (fun _ => pyNone) emptyRegistry "Db"
      { instance_ := some { tag := "theInstance" },
        factory := some (fun _ => { tag := "fromFactory" }) }).2.1
    { tag := "theInstance" } rfl

/-- C3: resolving a key with no stored producer (never registered, or
cleared) raises the not-registered `ValueError`; the error is surfaced,
never silently defaulted to any value. -/
theorem resolve_not_registered (reg : Registry) (k : Key) :
    (reg k = none →
      DependencyRegistry.resolve reg k
        = .error (DependencyRegistry.notRegisteredError k) ∧
      ∀ v, DependencyRegistry.resolve reg k ≠ .ok v) ∧
    (DependencyRegistry.resolve (DependencyRegistry.clear reg) k
      = .error (DependencyRegistry.notRegisteredError k)) := by
  constructor
  · intro h
    constructor
    · simp [DependencyRegistry.resolve, h]
    · intro v
      simp [DependencyRegistry.resolve, h]
  · simp [DependencyRegistry.resolve, DependencyRegistry.clear]

/-- Witness for C3 at a concrete input: an empty registry, and a cleared
registry that previously held a registration, both fail to resolve. -/
theorem resolve_not_registered_witness :
    DependencyRegistry.resolve emptyRegistry "Db"
        = .error (DependencyRegistry.notRegisteredError "Db") ∧
    DependencyRegistry.resolve
      (DependencyRegistry.clear
        (DependencyRegistry.register (fun _ => pyNone) emptyRegistry "Db"
          { instance_ := some { tag := "theInstance" } })) "Db"
      = .error (DependencyRegistry.notRegisteredError "Db") :=
  ⟨((resolve_not_registered emptyRegistry "Db").1 rfl).1,
   (resolve_not_registered
      (DependencyRegistry.register (fun _ => pyNone) emptyRegistry "Db"
        { instance_ := some { tag := "theInstance" } }) "Db").2⟩

/-- C8: after `register(key, instance := v)`, every subsequent `resolve` of
the key returns exactly `v`, across arbitrarily many repeated resolutions
(the stored producer is the constant closure `lambda: instance` and
resolution never mutates the registry). -/
theorem resolve_instance_identity (ctorEnv : Key → Obj) (reg : Registry)
    (k : Key) (v : Obj) (opts : RegisterOptions) (n : Nat) :
    opts.instance_ = some v →
    DependencyRegistry.resolveN (DependencyRegistry.register ctorEnv reg k opts) k n
      = List.replicate n (.ok v) := by
  intro h
  induction n with
  | zero => rfl
  | succ m ih =>
    have hres := resolve_after_register_instance ctorEnv reg k v opts h
    simp [DependencyRegistry.resolveN, ih, hres, List.replicate]

/-- C1 (amended): for a resolved value classified as a synchronous context
manager, on every call in which injection is not skipped, the resource is
acquired before the single target call, the acquired (unwrapped) object is
bound to the named parameter, and the release step runs after the target
returns or raises, receiving the in-flight exception if any; a
target-raised exception is then re-raised unchanged to the wrapper's caller
unless the release step returns a truthy value, in which case the wrapper
suppresses the exception and returns None (per the host context-manager
protocol). -/
theorem sync_scoped_lifecycle (env : Env) (reg : Registry) (sig : Sig) (func : Func)
    (pn : String) (k : Key) (args : List Obj) (kwargs : Kwargs)
    (dep : Obj) (param : Param)
    (hres : DependencyRegistry.resolve reg k = .ok dep)
    (hfind : findParam sig pn = some param)
    (hskip : skipInjection sig param pn args = false)
    (hcm : Inspector.is_context_manager dep = true) :
    (∀ v, func args (kwSet kwargs pn (env.enterFn dep)) = .ok v →
      Wrapper.wrap_function_with_context env reg sig func pn k args kwargs
        = (.ok v, [.enter dep (env.enterFn dep),
            .callTarget args (kwSet kwargs pn (env.enterFn dep)),
            .exited dep none])) ∧
    (∀ e, func args (kwSet kwargs pn (env.enterFn dep)) = .error e →
      Wrapper.wrap_function_with_context env reg sig func pn k args kwargs
        = (if env.exitFn dep (some e) then .ok pyNone else .error e,
           [.enter dep (env.enterFn dep),
            .callTarget args (kwSet kwargs pn (env.enterFn dep)),
            .exited dep (some e)])) :=
  ⟨fun v hok => wrapSync_cm_ok env reg sig func pn k args kwargs dep param v
      hres hfind hskip hcm hok,
   fun e herr => wrapSync_cm_err env reg sig func pn k args kwargs dep param e
      hres hfind hskip hcm herr⟩

/-- C1 counterexample: with a synchronous scoped resource whose release
step returns a truthy value, the target raises, the exception is forwarded
to the release step (as the trace shows), but it is NOT re-raised to the
wrapper's caller: the wrapper returns None. -/
theorem sync_scoped_suppression_counterexample :
    raiseBoom [] (kwSet [] "dep" ctxObj) = .error (.userExc "boom") ∧
    Wrapper.wrap_function_with_context envSuppress (regFor "Res" syncCMObj) sigDep
        raiseBoom "dep" "Res" [] []
      = (.ok pyNone,
         [.enter syncCMObj ctxObj, .callTarget [] [("dep", ctxObj)],
          .exited syncCMObj (some (.userExc "boom"))]) :=
  ⟨rfl, rfl⟩

/-- Witness for C1 at a concrete input: a non-suppressing resource is
acquired, its context object injected by name, the target called once, and
the resource released. -/
theorem sync_scoped_lifecycle_witness :
    Wrapper.wrap_function_with_context env0 (regFor "Res" syncCMObj) sigDep identityFunc
        "dep" "Res" [] []
      = (.ok ctxObj,
         [.enter syncCMObj ctxObj, .callTarget [] [("dep", ctxObj)],
          .exited syncCMObj none]) :=
  (sync_scoped_lifecycle env0 (regFor "Res" syncCMObj) sigDep identityFunc "dep" "Res"
      [] [] syncCMObj ⟨"dep", .positionalOrKeyword⟩ rfl rfl rfl rfl).1 ctxObj rfl

/-- C4: the injected parameter's position is computed among the positional
parameters of the original declared signature; when the caller's positional
arguments already cover that position, injection is skipped entirely and
the target is called through with the caller's arguments unmodified, in
both the synchronous and the asynchronous wrapper. -/
theorem positional_skip (env : Env) (reg : Registry) (sig : Sig) (func : Func)
    (pn : String) (k : Key) (args : List Obj) (kwargs : Kwargs)
    (dep : Obj) (param : Param)
    (hres : DependencyRegistry.resolve reg k = .ok dep)
    (hfind : findParam sig pn = some param)
    (hkind : isPositionalKind param.kind = true)
    (hcover : positionalCountBefore sig pn < args.length) :
    Wrapper.wrap_function_with_context env reg sig func pn k args kwargs
      = (func args kwargs, [.callTarget args kwargs]) ∧
    Wrapper.wrap_async_function_with_context env reg sig func pn k args kwargs
      = (func args kwargs, [.callTarget args kwargs]) := by
  have hskip : skipInjection sig param pn args = true := by
    simp [skipInjection, hkind, hcover]
  exact ⟨wrapSync_skip env reg sig func pn k args kwargs dep param hres hfind hskip,
         wrapAsync_skip env reg sig func pn k args kwargs dep param hres hfind hskip⟩

/-- Witness for C4 at a concrete input: with the parameter already covered
by a positional argument, the caller's value wins (the registered scoped
resource is neither acquired nor injected). -/
theorem positional_skip_witness :
    Wrapper.wrap_function_with_context env0 (regFor "Res" syncCMObj) sigDep headFunc
        "dep" "Res" [callerObj] []
      = (.ok callerObj, [.callTarget [callerObj] []]) :=
  (positional_skip env0 (regFor "Res" syncCMObj) sigDep headFunc "dep" "Res"
      [callerObj] [] syncCMObj ⟨"dep", .positionalOrKeyword⟩ rfl rfl rfl
      (by decide)).1

/-- C5: for an asynchronous multi-value resource, the asynchronous wrapper
advances the sequence exactly one step, binds that single produced value to
the named parameter, and performs exactly one call to the target. -/
theorem async_multi_single_step (env : Env) (reg : Registry) (sig : Sig) (func : Func)
    (pn : String) (k : Key) (args : List Obj) (kwargs : Kwargs)
    (dep : Obj) (param : Param) (v : Obj) (rest : List Obj)
    (hres : DependencyRegistry.resolve reg k = .ok dep)
    (hfind : findParam sig pn = some param)
    (hskip : skipInjection sig param pn args = false)
    (hacm : Inspector.is_async_context_manager dep = false)
    (hagen : Inspector.is_async_generator dep = true)
    (hvals : env.agenFn dep = v :: rest) :
    Wrapper.wrap_async_function_with_context env reg sig func pn k args kwargs
      = (func args (kwSet kwargs pn v),
         [.anext dep (some v), .callTarget args (kwSet kwargs pn v)]) ∧
    anextSteps (Wrapper.wrap_async_function_with_context env reg sig func pn k args kwargs).2 = 1 ∧
    callCount (Wrapper.wrap_async_function_with_context env reg sig func pn k args kwargs).2 = 1 := by
  have h := wrapAsync_agen env reg sig func pn k args kwargs dep param v rest
    hres hfind hskip hacm hagen hvals
  refine ⟨h, ?_, ?_⟩ <;> rw [h] <;> rfl

/-- Witness for C5 at a concrete input: for a resource yielding
`["first", "second", "third"]` and a target returning the injected value
unchanged, a single wrapped call returns `"first"`. -/
theorem async_multi_single_step_witness :
    Wrapper.wrap_async_function_with_context env0 (regFor "Res" agenObj) sigDep identityFunc
        "dep" "Res" [] []
      = (.ok firstObj,
         [.anext agenObj (some firstObj), .callTarget [] [("dep", firstObj)]]) :=
  (async_multi_single_step env0 (regFor "Res" agenObj) sigDep identityFunc "dep" "Res"
      [] [] agenObj ⟨"dep", .positionalOrKeyword⟩ firstObj [secondObj, thirdObj]
      rfl rfl rfl rfl rfl rfl).1

/-- C6 (amended): for an asynchronous multi-value resource consumed by a
wrapped call, the wrapper advances the sequence exactly one step and never
drives it to exhaustion: after the single target call it returns
immediately, leaving the remaining values and the finalization point past
the first yield unconsumed (finalization is left to the host runtime's
generator collection, not performed by the wrapper). -/
theorem async_multi_no_drain (env : Env) (reg : Registry) (sig : Sig) (func : Func)
    (pn : String) (k : Key) (args : List Obj) (kwargs : Kwargs)
    (dep : Obj) (param : Param) (v : Obj) (rest : List Obj)
    (hres : DependencyRegistry.resolve reg k = .ok dep)
    (hfind : findParam sig pn = some param)
    (hskip : skipInjection sig param pn args = false)
    (hacm : Inspector.is_async_context_manager dep = false)
    (hagen : Inspector.is_async_generator dep = true)
    (hvals : env.agenFn dep = v :: rest) :
    anextSteps (Wrapper.wrap_async_function_with_context env reg sig func pn k args kwargs).2 = 1 ∧
    genExhausted (Wrapper.wrap_async_function_with_context env reg sig func pn k args kwargs).2 dep
      = false := by
  have h := wrapAsync_agen env reg sig func pn k args kwargs dep param v rest
    hres hfind hskip hacm hagen hvals
  rw [h]
  constructor
  · rfl
  · simp [genExhausted]

/-- C6 counterexample: with the fixture resource yielding three values and
an identity target, the wrapped call completes normally returning the first
value, yet the trace contains exactly one advancement step and no terminal
advancement — the sequence (two further values and the finalization point)
is not drained to exhaustion on normal completion. -/
theorem async_multi_drain_counterexample :
    env0.agenFn agenObj = [firstObj, secondObj, thirdObj] ∧
    Wrapper.wrap_async_function_with_context env0 (regFor "Res" agenObj) sigDep identityFunc
        "dep" "Res" [] []
      = (.ok firstObj,
         [.anext agenObj (some firstObj), .callTarget [] [("dep", firstObj)]]) ∧
    anextSteps [.anext agenObj (some firstObj), .callTarget [] [("dep", firstObj)]] = 1 ∧
    genExhausted [.anext agenObj (some firstObj), .callTarget [] [("dep", firstObj)]] agenObj
      = false := by
  refine ⟨rfl, rfl, rfl, ?_⟩
  decide

/-- Witness for C6 at a concrete input: the fixture run advances once and
leaves the sequence unexhausted. -/
theorem async_multi_no_drain_witness :
    anextSteps (Wrapper.wrap_async_function_with_context env0 (regFor "Res" agenObj) sigDep
        identityFunc "dep" "Res" [] []).2 = 1 ∧
    genExhausted (Wrapper.wrap_async_function_with_context env0 (regFor "Res" agenObj) sigDep
        identityFunc "dep" "Res" [] []).2 agenObj = false :=
  async_multi_no_drain env0 (regFor "Res" agenObj) sigDep identityFunc "dep" "Res"
    [] [] agenObj ⟨"dep", .positionalOrKeyword⟩ firstObj [secondObj, thirdObj]
    rfl rfl rfl rfl rfl rfl

/-- C7 (amended): classification is per wrapper, not a single global
precedence: the synchronous wrapper distinguishes only
synchronous-scoped > plain (the asynchronous markers are ignored there),
and the asynchronous wrapper distinguishes asynchronous-scoped >
asynchronous-multi-value > plain (the synchronous markers are ignored
there); a value exposing both the synchronous and the asynchronous
capability pair is treated as a synchronous scoped resource by the
synchronous wrapper but as an asynchronous scoped resource by the
asynchronous wrapper.  Each wrapper acquires the resource exactly when its
own shape function says scoped, as witnessed by the head of the event
trace. -/
theorem shape_precedence_per_wrapper (o : Obj) :
    (syncShape o = .syncScoped ↔ Inspector.is_context_manager o = true) ∧
    (asyncShape o = .asyncScoped ↔ Inspector.is_async_context_manager o = true) ∧
    (asyncShape o = .asyncMulti ↔
      (Inspector.is_async_context_manager o = false ∧
       Inspector.is_async_generator o = true)) ∧
    (Inspector.is_context_manager o = true →
      Inspector.is_async_context_manager o = true →
      syncShape o = .syncScoped ∧ asyncShape o = .asyncScoped ∧
      specShape o = .syncScoped) ∧
    (∀ (env : Env) (reg : Registry) (sig : Sig) (func : Func) (pn : String)
       (k : Key) (args : List Obj) (kwargs : Kwargs) (param : Param),
      DependencyRegistry.resolve reg k = .ok o →
      findParam sig pn = some param →
      skipInjection sig param pn args = false →
      ((Wrapper.wrap_function_with_context env reg sig func pn k args kwargs).2.head?
          = some (.enter o (env.enterFn o)) ↔ syncShape o = .syncScoped)) ∧
    (∀ (env : Env) (reg : Registry) (sig : Sig) (func : Func) (pn : String)
       (k : Key) (args : List Obj) (kwargs : Kwargs) (param : Param),
      DependencyRegistry.resolve reg k = .ok o →
      findParam sig pn = some param →
      skipInjection sig param pn args = false →
      ((Wrapper.wrap_async_function_with_context env reg sig func pn k args kwargs).2.head?
          = some (.aenter o (env.aenterFn o)) ↔ asyncShape o = .asyncScoped)) := by
  refine ⟨?_, ?_, ?_, ?_, ?_, ?_⟩
  · cases hc : Inspector.is_context_manager o <;> simp [syncShape, hc]
  · cases hc : Inspector.is_async_context_manager o <;>
      cases hg : Inspector.is_async_generator o <;> simp [asyncShape, hc, hg]
  · cases hc : Inspector.is_async_context_manager o <;>
      cases hg : Inspector.is_async_generator o <;> simp [asyncShape, hc, hg]
  · intro h1 h2
    exact ⟨by simp [syncShape, h1], by simp [asyncShape, h2], by simp [specShape, h1]⟩
  · intro env reg sig func pn k args kwargs param hres hfind hskip
    cases hcm : Inspector.is_context_manager o with
    | true =>
      cases hf : func args (kwSet kwargs pn (env.enterFn o)) with
      | ok v =>
        rw [wrapSync_cm_ok env reg sig func pn k args kwargs o param v hres hfind hskip hcm hf]
        simp [syncShape, hcm]
      | error e =>
        rw [wrapSync_cm_err env reg sig func pn k args kwargs o param e hres hfind hskip hcm hf]
        simp [syncShape, hcm]
    | false =>
      rw [wrapSync_plain env reg sig func pn k args kwargs o param hres hfind hskip hcm]
      simp [syncShape, hcm]
  · intro env reg sig func pn k args kwargs param hres hfind hskip
    cases hacm : Inspector.is_async_context_manager o with
    | true =>
      cases hf : func args (kwSet kwargs pn (env.aenterFn o)) with
      | ok v =>
        rw [wrapAsync_acm_ok env reg sig func pn k args kwargs o param v hres hfind hskip hacm hf]
        simp [asyncShape, hacm]
      | error e =>
        rw [wrapAsync_acm_err env reg sig func pn k args kwargs o param e hres hfind hskip hacm hf]
        simp [asyncShape, hacm]
    | false =>
      cases hagen : Inspector.is_async_generator o with
      | true =>
        cases hvals : env.agenFn o with
        | nil =>
          simp [Wrapper.wrap_async_function_with_context, hres, hfind, hskip, hacm, hagen,
            hvals, asyncShape]
        | cons v rest =>
          rw [wrapAsync_agen env reg sig func pn k args kwargs o param v rest
            hres hfind hskip hacm hagen hvals]
          simp [asyncShape, hacm, hagen]
      | false =>
        rw [wrapAsync_plain env reg sig func pn k args kwargs o param hres hfind hskip hacm hagen]
        simp [asyncShape, hacm, hagen]

/-- C7 counterexample: a value exposing both the synchronous and the
asynchronous context-manager pair is treated by the asynchronous wrapper as
an asynchronous scoped resource (acquired with the asynchronous protocol,
injecting the `__aenter__` result), not as a synchronous scoped resource as
the spec's single fixed precedence asserts. -/
theorem shape_precedence_counterexample :
    Inspector.is_context_manager dualObj = true ∧
    Inspector.is_async_context_manager dualObj = true ∧
    specShape dualObj = Shape.syncScoped ∧
    asyncShape dualObj = Shape.asyncScoped ∧
    asyncShape dualObj ≠ specShape dualObj ∧
    Wrapper.wrap_async_function_with_context env0 (regFor "Res" dualObj) sigDep identityFunc
        "dep" "Res" [] []
      = (.ok actxObj,
         [.aenter dualObj actxObj, .callTarget [] [("dep", actxObj)],
          .aexited dualObj none]) :=
  ⟨rfl, rfl, rfl, rfl, by decide, rfl⟩

/-- Witness for C7 at a concrete input: the dual-capability object is
synchronous-scoped for the synchronous wrapper and asynchronous-scoped for
the asynchronous wrapper. -/
theorem shape_precedence_per_wrapper_witness :
    syncShape dualObj = Shape.syncScoped ∧ asyncShape dualObj = Shape.asyncScoped ∧
    specShape dualObj = Shape.syncScoped :=
  (shape_precedence_per_wrapper dualObj).2.2.2.1 rfl rfl

/-- Witness for C8 at a concrete input: three successive resolutions all
return the registered instance. -/
theorem resolve_instance_identity_witness :
    DependencyRegistry.resolveN
      (DependencyRegistry.register (fun _ => pyNone) emptyRegistry "Db"
        { instance_ := some { tag := "theInstance" } }) "Db" 3
      = List.replicate 3 (.ok { tag := "theInstance" }) :=
  resolve_instance_identity (fun _ => pyNone) emptyRegistry "Db"
    { tag := "theInstance" } { instance_ := some { tag := "theInstance" } } 3 rfl

/-- C9 (amended): no runtime type check is performed: `resolve` returns the
stored producer's result unmodified whatever its runtime class, and the
wrapper injects a factory-produced object whose runtime class differs from
the class key without surfacing any error. -/
theorem no_type_mismatch_check (reg : Registry) (k : Key) (p : Producer)
    (h : reg k = some p) :
    DependencyRegistry.resolve reg k = .ok (p ()) ∧
    (∀ (env : Env) (sig : Sig) (func : Func) (pn : String)
       (args : List Obj) (kwargs : Kwargs) (param : Param),
      findParam sig pn = some param →
      skipInjection sig param pn args = false →
      Inspector.is_context_manager (p ()) = false →
      kwMem kwargs pn = false →
      (p ()).ofCls ≠ k →
      Wrapper.wrap_function_with_context env reg sig func pn k args kwargs
        = (func args (kwSet kwargs pn (p ())),
           [.callTarget args (kwSet kwargs pn (p ()))])) := by
  have hres : DependencyRegistry.resolve reg k = .ok (p ()) := by
    simp [DependencyRegistry.resolve, h]
  refine ⟨hres, ?_⟩
  intro env sig func pn args kwargs param hfind hskip hcm hmem _hcls
  have hp := wrapSync_plain env reg sig func pn k args kwargs (p ()) param
    hres hfind hskip hcm
  simpa [hmem] using hp

/-- C9 counterexample: a class key whose registered factory returns an
object of a different runtime class: resolution succeeds with the
mismatched object (no error of any kind is raised) and the wrapped call
injects it and completes normally — no type-mismatch error is surfaced by
`resolve` or by the wrapper. -/
theorem type_mismatch_counterexample :
    mismatchObj.ofCls = "Other" ∧
    DependencyRegistry.resolve
      (DependencyRegistry.register (fun _ => pyNone) emptyRegistry "Expected"
        { factory := some (fun _ => mismatchObj) }) "Expected" = .ok mismatchObj ∧
    Wrapper.wrap_function_with_context env0
      (DependencyRegistry.register (fun _ => pyNone) emptyRegistry "Expected"
        { factory := some (fun _ => mismatchObj) }) sigDep identityFunc
      "dep" "Expected" [] []
      = (.ok mismatchObj, [.callTarget [] [("dep", mismatchObj)]]) :=
  ⟨rfl, rfl, rfl⟩

/-- Witness for C9 at a concrete input: a mismatched factory result is
resolved and injected without error. -/
theorem no_type_mismatch_check_witness :
    DependencyRegistry.resolve (regFor "Expected" mismatchObj) "Expected"
      = .ok mismatchObj ∧
    Wrapper.wrap_function_with_context env0 (regFor "Expected" mismatchObj) sigDep
        identityFunc "dep" "Expected" [] []
      = (.ok mismatchObj, [.callTarget [] [("dep", mismatchObj)]]) := by
  have h := no_type_mismatch_check (regFor "Expected" mismatchObj) "Expected"
    (fun _ => mismatchObj) rfl
  exact ⟨h.1, h.2 env0 sigDep identityFunc "dep" [] []
    ⟨"dep", .positionalOrKeyword⟩ rfl rfl rfl rfl (by decide)⟩

/-- C10: when the caller supplies the injected parameter as a keyword
argument (injection not skipped), a scoped-resource classification
overwrites the caller's keyword argument with the unwrapped resource value
(sync context manager, async context manager, async generator), while only
the plain-value branch preserves it (injection happens only if the name is
absent from the keyword arguments). -/
theorem kwarg_overwrite_scoped (env : Env) (reg : Registry) (sig : Sig) (func : Func)
    (pn : String) (k : Key) (args : List Obj) (kwargs : Kwargs)
    (dep : Obj) (param : Param)
    (hres : DependencyRegistry.resolve reg k = .ok dep)
    (hfind : findParam sig pn = some param)
    (hskip : skipInjection sig param pn args = false)
    (hmem : kwMem kwargs pn = true) :
    (Inspector.is_context_manager dep = true →
      calledKwargs (Wrapper.wrap_function_with_context env reg sig func pn k args kwargs).2
        = some (kwSet kwargs pn (env.enterFn dep)) ∧
      kwGet (kwSet kwargs pn (env.enterFn dep)) pn = some (env.enterFn dep)) ∧
    (Inspector.is_context_manager dep = false →
      calledKwargs (Wrapper.wrap_function_with_context env reg sig func pn k args kwargs).2
        = some kwargs) ∧
    (Inspector.is_async_context_manager dep = true →
      calledKwargs (Wrapper.wrap_async_function_with_context env reg sig func pn k args kwargs).2
        = some (kwSet kwargs pn (env.aenterFn dep)) ∧
      kwGet (kwSet kwargs pn (env.aenterFn dep)) pn = some (env.aenterFn dep)) ∧
    (∀ v rest, Inspector.is_async_context_manager dep = false →
      Inspector.is_async_generator dep = true →
      env.agenFn dep = v :: rest →
      calledKwargs (Wrapper.wrap_async_function_with_context env reg sig func pn k args kwargs).2
        = some (kwSet kwargs pn v) ∧
      kwGet (kwSet kwargs pn v) pn = some v) ∧
    (Inspector.is_async_context_manager dep = false →
      Inspector.is_async_generator dep = false →
      calledKwargs (Wrapper.wrap_async_function_with_context env reg sig func pn k args kwargs).2
        = some kwargs) := by
  refine ⟨?_, ?_, ?_, ?_, ?_⟩
  · intro hcm
    refine ⟨?_, kwGet_kwSet kwargs pn (env.enterFn dep)⟩
    cases hf : func args (kwSet kwargs pn (env.enterFn dep)) with
    | ok v =>
      rw [wrapSync_cm_ok env reg sig func pn k args kwargs dep param v
        hres hfind hskip hcm hf]
      rfl
    | error e =>
      rw [wrapSync_cm_err env reg sig func pn k args kwargs dep param e
        hres hfind hskip hcm hf]
      rfl
  · intro hcm
    rw [wrapSync_plain env reg sig func pn k args kwargs dep param hres hfind hskip hcm]
    simp [calledKwargs, hmem]
  · intro hacm
    refine ⟨?_, kwGet_kwSet kwargs pn (env.aenterFn dep)⟩
    cases hf : func args (kwSet kwargs pn (env.aenterFn dep)) with
    | ok v =>
      rw [wrapAsync_acm_ok env reg sig func pn k args kwargs dep param v
        hres hfind hskip hacm hf]
      rfl
    | error e =>
      rw [wrapAsync_acm_err env reg sig func pn k args kwargs dep param e
        hres hfind hskip hacm hf]
      rfl
  · intro v rest hacm hagen hvals
    refine ⟨?_, kwGet_kwSet kwargs pn v⟩
    rw [wrapAsync_agen env reg sig func pn k args kwargs dep param v rest
      hres hfind hskip hacm hagen hvals]
    rfl
  · intro hacm hagen
    rw [wrapAsync_plain env reg sig func pn k args kwargs dep param
      hres hfind hskip hacm hagen]
    simp [calledKwargs, hmem]

/-- Witness for C10 at a concrete input: the caller's keyword argument for
`dep` is overwritten with the context object of a synchronous scoped
resource. -/
theorem kwarg_overwrite_scoped_witness :
    calledKwargs (Wrapper.wrap_function_with_context env0 (regFor "Res" syncCMObj) sigDep
        identityFunc "dep" "Res" [] [("dep", callerObj)]).2
      = some [("dep", ctxObj)] :=
  ((kwarg_overwrite_scoped env0 (regFor "Res" syncCMObj) sigDep identityFunc "dep" "Res"
      [] [("dep", callerObj)] syncCMObj ⟨"dep", .positionalOrKeyword⟩
      rfl rfl rfl rfl).1 rfl).1

end Skuf
